import Mathlib

/-!
Shallow embedding of the Runtime orchestrator of `src/src/core/runtime.rs`.

The core under verification is `Runtime` (construction, one `run` cycle, and
the jittered periodic loop `run_periodically`).  External collaborators (the
language-model client behind `Agent::prompt`, the persistence layer behind
`MemoryStore`, the Twitter/Discord HTTP clients, and the random number
generator) are modelled as oracle parameters: pure functions supplied in an
`Env` record, and explicit random draws.  Rust `panic!` is modelled as
`Option.none`; Rust `Result` as `Except String`.
-/

/-- Modelled from the spec: an `Agent` wraps the model credential and the
prompt (instruction) template; `Agent::new` is pure construction, no I/O.
(`src/core/agent.rs` is not part of the provided sources.) -/
structure Agent where
  credential : String
  instruction_template : String
deriving DecidableEq, Inhabited, Repr

/-- Modelled from the spec: the key-auth Twitter client holds the four
credential fields passed to `Twitter::new`. -/
structure Twitter where
  consumer_key : String
  consumer_secret : String
  access_token : String
  access_token_secret : String
deriving DecidableEq, Repr

/-- Modelled from the spec: the password-auth Twitter client holds the
username and password passed to `Ai16zTwitter::new`. -/
structure Ai16zTwitter where
  username : String
  password : String
deriving DecidableEq, Repr

/-- Modelled from the spec: the chat-webhook client holds the webhook URL
passed to `Discord::new`. -/
structure Discord where
  webhook_url : String
deriving DecidableEq, Repr

/-- `enum TwitterType` from `runtime.rs`: tagged union over the two
authentication variants. -/
inductive TwitterType where
  | ApiKeys (t : Twitter)
  | Ai16zTwitter (t : Ai16zTwitter)
deriving DecidableEq, Repr

/-- Discriminator: the option holds the password-auth (`Ai16zTwitter`)
variant. -/
def isPasswordVariant : Option TwitterType → Bool
  | some (TwitterType.Ai16zTwitter _) => true
  | _ => false

/-- Discriminator: the option holds the key-auth (`ApiKeys`) variant. -/
def isApiKeysVariant : Option TwitterType → Bool
  | some (TwitterType.ApiKeys _) => true
  | _ => false

/-- The `twitter` selection `match` of `Runtime::new` (runtime.rs lines
49–76): password-auth is chosen when both username and password are present,
otherwise key-auth when all four key fields are present, otherwise the
constructor panics (modelled as `none`). -/
def selectTwitter (twitter_consumer_key twitter_consumer_secret
    twitter_access_token twitter_access_token_secret
    twitter_username twitter_password : Option String) : Option TwitterType :=
  match twitter_username, twitter_password with
  | some username, some password =>
      some (TwitterType.Ai16zTwitter { username := username, password := password })
  | _, _ =>
      match twitter_consumer_key, twitter_consumer_secret,
            twitter_access_token, twitter_access_token_secret with
      | some consumer_key, some consumer_secret,
        some access_token, some access_token_secret =>
          some (TwitterType.ApiKeys
            { consumer_key := consumer_key, consumer_secret := consumer_secret,
              access_token := access_token,
              access_token_secret := access_token_secret })
      | _, _, _, _ => none

/-- `struct Runtime` from `runtime.rs`. -/
structure Runtime where
  openai_api_key : String
  twitter : TwitterType
  discord : Discord
  agents : List Agent
  memory : List String
deriving DecidableEq, Repr

/-- `MemoryStore::load_memory().unwrap_or_else(|_| Vec::new())` from
`Runtime::new` (runtime.rs line 80): a load error is absorbed and yields the
empty history. The load outcome itself is an oracle input. -/
def initial_memory (load : Except String (List String)) : List String :=
  match load with
  | Except.ok m => m
  | Except.error _ => []

/-- `Runtime::new` (runtime.rs lines 39–89).  The `panic!` on missing
authentication is modelled as `none`; the durable-store load outcome is the
oracle argument `load`. -/
def Runtime.new (openai_api_key discord_webhook_url : String)
    (twitter_consumer_key twitter_consumer_secret
     twitter_access_token twitter_access_token_secret
     twitter_username twitter_password : Option String)
    (load : Except String (List String)) : Option Runtime :=
  match selectTwitter twitter_consumer_key twitter_consumer_secret
      twitter_access_token twitter_access_token_secret
      twitter_username twitter_password with
  | none => none
  | some tw =>
      some { openai_api_key := openai_api_key
             twitter := tw
             discord := { webhook_url := discord_webhook_url }
             agents := []
             memory := initial_memory load }

/-- `Runtime::add_agent` (runtime.rs lines 91–94). -/
def Runtime.add_agent (rt : Runtime) (prompt : String) : Runtime :=
  { rt with agents := rt.agents ++ [Agent.mk rt.openai_api_key prompt] }

/-- Oracle environment for one `run` cycle: the outcomes the external
collaborators would produce, and the raw random draw behind
`rng.gen_range(0..len)`. -/
structure Env where
  draw : Nat
  promptResult : Agent → String → Except String String
  persistResult : List String → Except String Unit
  apiTweet : Twitter → String → Except String Unit
  ai16zTweet : Ai16zTwitter → String → Except String Unit

/-- `TwitterType::tweet` (runtime.rs lines 16–27): dispatch on the variant,
forwarding to the variant's client (an oracle here). -/
def TwitterType.tweet (tt : TwitterType) (env : Env) (text : String) :
    Except String Unit :=
  match tt with
  | TwitterType.ApiKeys twitter => env.apiTweet twitter text
  | TwitterType.Ai16zTwitter ai6z_twitter => env.ai16zTweet ai6z_twitter text

/-- Models the `rand` contract of `gen_range(lo..hi)` (half-open range): the
result is `lo + draw % (hi - lo)`, always in `[lo, hi)` when `lo < hi`; the
explicit `draw` stands for the generator's randomness. -/
def gen_range (lo hi draw : Nat) : Nat := lo + draw % (hi - lo)

/-- Models the `rand` contract of `gen_range(lo..=hi)` (inclusive range):
the result is `lo + draw % (hi - lo + 1)`, always in `[lo, hi]`. -/
def gen_range_inclusive (lo hi draw : Nat) : Nat := lo + draw % (hi - lo + 1)

/-- The agent index drawn by `run`: `rng.gen_range(0..self.agents.len())`
(runtime.rs line 102). -/
def Runtime.selectedIndex (rt : Runtime) (draw : Nat) : Nat :=
  gen_range 0 rt.agents.length draw

/-- Total variant of the agent lookup `self.agents[idx]`, defaulting when out
of bounds (shown in `run_agent_selection_in_bounds` never to happen). -/
def Runtime.selectedAgentD (rt : Runtime) (draw : Nat) : Agent :=
  rt.agents.getD (rt.selectedIndex draw) default

/-- Modelled from the spec: `MemoryStore::add_to_memory` appends the text to
the in-memory sequence and attempts to persist the updated sequence,
reporting a persistence failure without rolling back the in-memory addition.
(`src/memory.rs` is not part of the provided sources; the persistence outcome
is the oracle `persist`.) -/
def MemoryStore.add_to_memory (persist : List String → Except String Unit)
    (memory : List String) (response : String) :
    List String × Except String Unit :=
  let memory2 := memory ++ [response]
  (memory2, persist memory2)

/-- Observable side effects of one `run` cycle: the `(agent, instruction)`
pairs sent to `Agent::prompt`, the texts sent to the Discord webhook, and the
texts for which a tweet was attempted. -/
structure RunEffects where
  promptCalls : List (Agent × String)
  discordSends : List String
  tweetCalls : List String
deriving DecidableEq, Repr

/-- The empty effect log. -/
def RunEffects.empty : RunEffects := { promptCalls := [], discordSends := [], tweetCalls := [] }

/-- `Runtime::run` (runtime.rs lines 96–114): fail on an empty pool, select
an agent at random, prompt it with `"tweet"` (propagating failure), append
the response to memory (logging but ignoring a persistence failure), send to
Discord, then tweet (propagating failure).  Returns the updated state, the
effect log, and the cycle result. -/
def Runtime.run (rt : Runtime) (env : Env) :
    Runtime × RunEffects × Except String Unit :=
  if h : rt.agents = [] then
    (rt, RunEffects.empty, Except.error "No agents available")
  else
    let selected_agent := rt.agents.get
      ⟨rt.selectedIndex env.draw, by
        have hp : 0 < rt.agents.length := List.length_pos.mpr h
        have hm := Nat.mod_lt env.draw hp
        simp only [Runtime.selectedIndex, gen_range, Nat.sub_zero, Nat.zero_add]
        omega⟩
    match env.promptResult selected_agent "tweet" with
    | Except.error e =>
        (rt, { promptCalls := [(selected_agent, "tweet")], discordSends := [],
               tweetCalls := [] }, Except.error e)
    | Except.ok response =>
        let appended := MemoryStore.add_to_memory env.persistResult rt.memory response
        let rt2 := { rt with memory := appended.1 }
        let effects : RunEffects :=
          { promptCalls := [(selected_agent, "tweet")],
            discordSends := [response], tweetCalls := [response] }
        match rt2.twitter.tweet env response with
        | Except.error e => (rt2, effects, Except.error e)
        | Except.ok _ => (rt2, effects, Except.ok ())

/-- One iteration of the `loop` body of `Runtime::run_periodically`
(runtime.rs lines 119–127): draw a sleep duration from `300..=1800`, sleep
(recorded as the duration), execute one `run` cycle, and log-and-discard its
error.  Returns the next state and the iteration's event: the slept duration
paired with the `run` result. -/
def Runtime.run_periodically_step (rt : Runtime) (sleepDraw : Nat) (env : Env) :
    Runtime × (Nat × Except String Unit) :=
  let random_sleep_duration := gen_range_inclusive 300 1800 sleepDraw
  let r := rt.run env
  (r.1, (random_sleep_duration, r.2.2))

/-- The first `n` iterations of `run_periodically`, given streams of sleep
draws and collaborator environments: final state and the list of per-iteration
events (slept duration, `run` result), one per iteration. -/
def Runtime.run_periodically_trace (rt : Runtime) (sleepDraws : Nat → Nat)
    (envs : Nat → Env) : Nat → Runtime × List (Nat × Except String Unit)
  | 0 => (rt, [])
  | n + 1 =>
      let prev := rt.run_periodically_trace sleepDraws envs n
      let s := Runtime.run_periodically_step prev.1 (sleepDraws n) (envs n)
      (s.1, prev.2 ++ [s.2])

/-! ### Concrete fixtures used by the witness theorems -/

/-- A concrete agent. -/
def testAgent : Agent := { credential := "key", instruction_template := "be degen" }

/-- A concrete runtime with one agent and one prior memory entry. -/
def testRt : Runtime :=
  { openai_api_key := "key"
    twitter := TwitterType.Ai16zTwitter { username := "user", password := "pw" }
    discord := { webhook_url := "https://example.test/hook" }
    agents := [testAgent]
    memory := ["old"] }

/-- A concrete runtime with an empty agent pool. -/
def testRtNoAgents : Runtime := { testRt with agents := [] }

/-- Environment: generation succeeds, persistence succeeds, tweet fails. -/
def envTweetFail : Env :=
  { draw := 0
    promptResult := fun _ _ => Except.ok "gm"
    persistResult := fun _ => Except.ok ()
    apiTweet := fun _ _ => Except.error "tweet net down"
    ai16zTweet := fun _ _ => Except.error "tweet net down" }

/-- Environment: generation succeeds, persistence fails, tweet succeeds. -/
def envPersistFail : Env :=
  { draw := 0
    promptResult := fun _ _ => Except.ok "gm"
    persistResult := fun _ => Except.error "disk full"
    apiTweet := fun _ _ => Except.ok ()
    ai16zTweet := fun _ _ => Except.ok () }

/-- Environment: generation fails. -/
def envGenFail : Env :=
  { draw := 0
    promptResult := fun _ _ => Except.error "quota exceeded"
    persistResult := fun _ => Except.ok ()
    apiTweet := fun _ _ => Except.ok ()
    ai16zTweet := fun _ _ => Except.ok () }

/-- Environment: every collaborator fails. -/
def envAllFail : Env :=
  { draw := 7
    promptResult := fun _ _ => Except.error "quota exceeded"
    persistResult := fun _ => Except.error "disk full"
    apiTweet := fun _ _ => Except.error "tweet net down"
    ai16zTweet := fun _ _ => Except.error "tweet net down" }

/-- The event recorded by the first iteration of the periodic loop on
`testRt` under `envAllFail` with a zero sleep draw. -/
def testEv : Nat × Except String Unit := (300, Except.error "quota exceeded")

/-! ### Claim theorems -/

/-- Helper: on a non-empty pool, the selected index is in bounds. -/
theorem selectedIndex_lt (rt : Runtime) (draw : Nat) (h : rt.agents ≠ []) :
    rt.selectedIndex draw < rt.agents.length := by
  have hp : 0 < rt.agents.length := List.length_pos.mpr h
  have hm := Nat.mod_lt draw hp
  simp only [Runtime.selectedIndex, gen_range, Nat.sub_zero, Nat.zero_add]
  omega

/-- Helper: on a non-empty pool, `run` prompts exactly the agent at the drawn
index, once, with the instruction `"tweet"`. -/
theorem run_promptCalls_eq (rt : Runtime) (env : Env) (h : rt.agents ≠ []) :
    ∃ hlt : rt.selectedIndex env.draw < rt.agents.length,
      (rt.run env).2.1.promptCalls
        = [(rt.agents.get ⟨rt.selectedIndex env.draw, hlt⟩, "tweet")] := by
  refine ⟨selectedIndex_lt rt env.draw h, ?_⟩
  unfold Runtime.run
  rw [dif_neg h]
  dsimp only
  split
  · rfl
  · split <;> rfl

/-- C1: the social-media auth variant is selected by a fixed priority rule on
input presence alone: password-auth exactly when username and password are
both supplied (key fields ignored); otherwise key-auth exactly when all four
key fields are supplied; otherwise construction fails (panics, modelled as
`none`).  The three boolean equations partition all input combinations, so
exactly one outcome occurs. -/
theorem selectTwitter_priority (ck cs atk ats un pw : Option String) :
    isPasswordVariant (selectTwitter ck cs atk ats un pw)
        = (un.isSome && pw.isSome)
    ∧ isApiKeysVariant (selectTwitter ck cs atk ats un pw)
        = (!(un.isSome && pw.isSome)
            && (ck.isSome && cs.isSome && atk.isSome && ats.isSome))
    ∧ (selectTwitter ck cs atk ats un pw).isNone
        = (!(un.isSome && pw.isSome)
            && !(ck.isSome && cs.isSome && atk.isSome && ats.isSome)) := by
  cases un <;> cases pw <;> cases ck <;> cases cs <;> cases atk <;> cases ats <;>
    exact ⟨rfl, rfl, rfl⟩

/-- C5: on an empty agent pool, `run` returns the "no agents" error, leaves
the whole runtime state unchanged, and performs no prompt, Discord send, or
tweet attempt. -/
theorem run_empty_pool (rt : Runtime) (env : Env) (h : rt.agents = []) :
    (rt.run env).2.2 = Except.error "No agents available"
    ∧ (rt.run env).1 = rt
    ∧ (rt.run env).2.1 = RunEffects.empty := by
  simp [Runtime.run, h]

/-- Witness for `run_empty_pool` at the concrete empty-pool runtime. -/
theorem run_empty_pool_witness :
    (testRtNoAgents.run envAllFail).2.2 = Except.error "No agents available"
    ∧ (testRtNoAgents.run envAllFail).1 = testRtNoAgents
    ∧ (testRtNoAgents.run envAllFail).2.1 = RunEffects.empty :=
  run_empty_pool testRtNoAgents envAllFail rfl

/-- C9: loading memory at construction never fails the caller: whether
`Runtime.new` succeeds depends only on the auth selection, not on the load
outcome; on a successful load the runtime starts with exactly the loaded
sequence, and on a load error it starts with the empty history. -/
theorem new_load_absorbed (k url : String) (ck cs atk ats un pw : Option String)
    (load : Except String (List String)) (m : List String) (e : String) :
    (Runtime.new k url ck cs atk ats un pw load).isSome
        = (selectTwitter ck cs atk ats un pw).isSome
    ∧ (Runtime.new k url ck cs atk ats un pw (Except.ok m)).map Runtime.memory
        = (Runtime.new k url ck cs atk ats un pw (Except.ok m)).map (fun _ => m)
    ∧ (Runtime.new k url ck cs atk ats un pw (Except.error e)).map Runtime.memory
        = (Runtime.new k url ck cs atk ats un pw (Except.error e)).map
            (fun _ => ([] : List String)) := by
  cases hsel : selectTwitter ck cs atk ats un pw <;>
    simp [Runtime.new, hsel, initial_memory]

/-- C10: a `run` cycle never modifies any field other than `memory`: the
agent pool, the auth variant, the Discord target, and the model credential
are unchanged whether the cycle succeeds or fails. -/
theorem run_frame (rt : Runtime) (env : Env) :
    (rt.run env).1.agents = rt.agents
    ∧ (rt.run env).1.twitter = rt.twitter
    ∧ (rt.run env).1.discord = rt.discord
    ∧ (rt.run env).1.openai_api_key = rt.openai_api_key := by
  unfold Runtime.run
  split
  · exact ⟨rfl, rfl, rfl, rfl⟩
  · dsimp only
    split
    · exact ⟨rfl, rfl, rfl, rfl⟩
    · split <;> exact ⟨rfl, rfl, rfl, rfl⟩

/-- C2: on a non-empty pool, if generation succeeds with `resp` but the
social-media publish fails with `e`, then `run` returns that publish failure
and the memory history already holds `resp` appended at the end. -/
theorem run_publish_fail_partial (rt : Runtime) (env : Env) (resp e : String)
    (h : rt.agents ≠ [])
    (hgen : ∀ a ∈ rt.agents, env.promptResult a "tweet" = Except.ok resp)
    (htw : rt.twitter.tweet env resp = Except.error e) :
    (rt.run env).2.2 = Except.error e
    ∧ (rt.run env).1.memory = rt.memory ++ [resp] := by
  have hlt := selectedIndex_lt rt env.draw h
  have hsel : env.promptResult
      (rt.agents.get ⟨rt.selectedIndex env.draw, hlt⟩) "tweet" = Except.ok resp :=
    hgen _ (List.get_mem rt.agents _ hlt)
  simp only [List.get_eq_getElem] at hsel
  simp [Runtime.run, h, hsel, MemoryStore.add_to_memory, htw]

/-- Witness for `run_publish_fail_partial` at concrete inputs. -/
theorem run_publish_fail_partial_witness :
    (testRt.run envTweetFail).2.2 = Except.error "tweet net down"
    ∧ (testRt.run envTweetFail).1.memory = testRt.memory ++ ["gm"] :=
  run_publish_fail_partial testRt envTweetFail "gm" "tweet net down"
    (by decide) (fun _ _ => rfl) rfl

/-- C3: on a non-empty pool, if generation succeeds with `resp` and persisting
the appended memory fails, the cycle still attempts both the Discord send and
the tweet, and its result is exactly the social-media publish outcome. -/
theorem run_persist_fail_isolated (rt : Runtime) (env : Env) (resp pe : String)
    (h : rt.agents ≠ [])
    (hgen : ∀ a ∈ rt.agents, env.promptResult a "tweet" = Except.ok resp)
    (_hpersist : env.persistResult (rt.memory ++ [resp]) = Except.error pe) :
    (rt.run env).2.1.discordSends = [resp]
    ∧ (rt.run env).2.1.tweetCalls = [resp]
    ∧ (rt.run env).2.2 = rt.twitter.tweet env resp := by
  have hlt := selectedIndex_lt rt env.draw h
  have hsel : env.promptResult
      (rt.agents.get ⟨rt.selectedIndex env.draw, hlt⟩) "tweet" = Except.ok resp :=
    hgen _ (List.get_mem rt.agents _ hlt)
  simp only [List.get_eq_getElem] at hsel
  cases htw : rt.twitter.tweet env resp <;>
    simp [Runtime.run, h, hsel, MemoryStore.add_to_memory, htw]

/-- Witness for `run_persist_fail_isolated` at concrete inputs. -/
theorem run_persist_fail_isolated_witness :
    (testRt.run envPersistFail).2.1.discordSends = ["gm"]
    ∧ (testRt.run envPersistFail).2.1.tweetCalls = ["gm"]
    ∧ (testRt.run envPersistFail).2.2 = testRt.twitter.tweet envPersistFail "gm" :=
  run_persist_fail_isolated testRt envPersistFail "gm" "disk full"
    (by decide) (fun _ _ => rfl) rfl

/-- C4: on a non-empty pool the agent is always prompted with the fixed
instruction `"tweet"`, and if generation fails with `e` then `run` returns
that failure immediately, with the whole state (memory included) unchanged
and no Discord send or tweet attempted. -/
theorem run_gen_fail_aborts (rt : Runtime) (env : Env) (e : String)
    (h : rt.agents ≠ []) :
    (∀ p ∈ (rt.run env).2.1.promptCalls, p.2 = "tweet")
    ∧ ((∀ a ∈ rt.agents, env.promptResult a "tweet" = Except.error e) →
        (rt.run env).2.2 = Except.error e
        ∧ (rt.run env).1 = rt
        ∧ (rt.run env).2.1.discordSends = []
        ∧ (rt.run env).2.1.tweetCalls = []) := by
  obtain ⟨hlt, hPC⟩ := run_promptCalls_eq rt env h
  constructor
  · intro p hp
    rw [hPC, List.mem_singleton] at hp
    subst hp
    rfl
  · intro hgen
    have hsel : env.promptResult
        (rt.agents.get ⟨rt.selectedIndex env.draw, hlt⟩) "tweet" = Except.error e :=
      hgen _ (List.get_mem rt.agents _ hlt)
    simp only [List.get_eq_getElem] at hsel
    simp [Runtime.run, h, hsel]

/-- Witness for `run_gen_fail_aborts` at concrete inputs. -/
theorem run_gen_fail_aborts_witness :
    ((testRt.run envGenFail).2.1.promptCalls.headD (testAgent, "x")).2 = "tweet"
    ∧ (testRt.run envGenFail).2.2 = Except.error "quota exceeded"
    ∧ (testRt.run envGenFail).1 = testRt
    ∧ (testRt.run envGenFail).2.1.discordSends = []
    ∧ (testRt.run envGenFail).2.1.tweetCalls = [] := by
  have H := run_gen_fail_aborts testRt envGenFail "quota exceeded" (by decide)
  have H2 := H.2 (fun _ _ => rfl)
  refine ⟨H.1 _ ?_, H2.1, H2.2.1, H2.2.2.1, H2.2.2.2⟩
  rw [show (testRt.run envGenFail).2.1.promptCalls = [(testAgent, "tweet")] from rfl]
  exact List.mem_singleton.mpr rfl

/-- C8: on a non-empty pool and any random draw, the drawn agent index is
within the pool bounds, the agent at that index is a member of the pool, and
every agent actually prompted by `run` is a member of the pool. -/
theorem run_agent_selection_in_bounds (rt : Runtime) (env : Env)
    (h : rt.agents ≠ []) :
    rt.selectedIndex env.draw < rt.agents.length
    ∧ rt.selectedAgentD env.draw ∈ rt.agents
    ∧ ∀ p ∈ (rt.run env).2.1.promptCalls, p.1 ∈ rt.agents := by
  obtain ⟨hlt, hPC⟩ := run_promptCalls_eq rt env h
  refine ⟨hlt, ?_, ?_⟩
  · have hD : rt.selectedAgentD env.draw
        = rt.agents.get ⟨rt.selectedIndex env.draw, hlt⟩ := by
      simp [Runtime.selectedAgentD, List.getD_eq_getElem?_getD,
        List.getElem?_eq_getElem hlt]
    rw [hD]
    exact List.get_mem rt.agents _ hlt
  · intro p hp
    rw [hPC, List.mem_singleton] at hp
    subst hp
    exact List.get_mem rt.agents _ hlt

/-- Witness for `run_agent_selection_in_bounds` at concrete inputs. -/
theorem run_agent_selection_in_bounds_witness :
    testRt.selectedIndex envAllFail.draw < testRt.agents.length
    ∧ testRt.selectedAgentD envAllFail.draw ∈ testRt.agents
    ∧ ((testRt.run envAllFail).2.1.promptCalls.headD (testAgent, "x")).1
        ∈ testRt.agents := by
  have H := run_agent_selection_in_bounds testRt envAllFail (by decide)
  refine ⟨H.1, H.2.1, H.2.2 _ ?_⟩
  rw [show (testRt.run envAllFail).2.1.promptCalls = [(testAgent, "tweet")] from rfl]
  exact List.mem_singleton.mpr rfl

/-- C6: the periodic loop is resilient: after any number `n` of iterations —
with arbitrary collaborator outcomes, including every cycle failing — the
trace holds exactly one (sleep, run-result) event per iteration, and
iteration `n + 1` always takes place, proceeding from iteration `n`'s state
with `run`'s error discarded and one further sleep-then-run event recorded. -/
theorem run_periodically_resilient (rt : Runtime) (sleepDraws : Nat → Nat)
    (envs : Nat → Env) (n : Nat) :
    (rt.run_periodically_trace sleepDraws envs n).2.length = n
    ∧ (rt.run_periodically_trace sleepDraws envs (n + 1)).1
        = ((rt.run_periodically_trace sleepDraws envs n).1.run (envs n)).1
    ∧ (rt.run_periodically_trace sleepDraws envs (n + 1)).2
        = (rt.run_periodically_trace sleepDraws envs n).2
          ++ [(gen_range_inclusive 300 1800 (sleepDraws n),
               ((rt.run_periodically_trace sleepDraws envs n).1.run (envs n)).2.2)] := by
  refine ⟨?_, rfl, rfl⟩
  induction n with
  | zero => rfl
  | succ n ih =>
      simp [Runtime.run_periodically_trace, ih]

/-- C7: every sleep duration recorded by the periodic loop lies in the
inclusive range `[300, 1800]`, for every possible random draw. -/
theorem sleep_duration_in_range (rt : Runtime) (sleepDraws : Nat → Nat)
    (envs : Nat → Env) (n : Nat) :
    ∀ ev ∈ (rt.run_periodically_trace sleepDraws envs n).2,
      300 ≤ ev.1 ∧ ev.1 ≤ 1800 := by
  induction n with
  | zero =>
      intro ev hev
      simp [Runtime.run_periodically_trace] at hev
  | succ n ih =>
      intro ev hev
      simp only [Runtime.run_periodically_trace, List.mem_append,
        List.mem_singleton] at hev
      rcases hev with hev | hev
      · exact ih ev hev
      · subst hev
        dsimp only [Runtime.run_periodically_step]
        have hm := Nat.mod_lt (sleepDraws n) (show 0 < 1800 - 300 + 1 by decide)
        constructor
        · simp [gen_range_inclusive]
        · simp only [gen_range_inclusive]
          omega

/-- Witness for `sleep_duration_in_range` at a concrete one-iteration
trace. -/
theorem sleep_duration_in_range_witness :
    300 ≤ testEv.1 ∧ testEv.1 ≤ 1800 := by
  refine sleep_duration_in_range testRt (fun _ => 0) (fun _ => envAllFail) 1 testEv ?_
  rw [show (testRt.run_periodically_trace (fun _ => 0) (fun _ => envAllFail) 1).2
      = [testEv] from rfl]
  exact List.mem_singleton.mpr rfl
